import Mathlib

/-!
Verification of the selection-prompt core of the `inquire` library
(`src/inquire/src/prompts/select/prompt.rs` and
`src/inquire/src/prompts/multiselect/prompt.rs`) against its
natural-language specification.

Shallow embedding conventions:
* Rust `usize` values are `Nat`; `usize::MAX` is `USIZE_MAX` and
  `saturating_add` is `min (a + b) USIZE_MAX`.  `Nat` subtraction already
  models `saturating_sub`, and `checked_sub` successful/failing branches are
  written out as an `if _ ≤ _` test.
* `u32` casts (`as u32`) truncate modulo `2 ^ 32`; `u32::saturating_mul`
  caps at `U32_MAX`.  Frame and terminal heights are `u16` values in the
  source; the embedded definitions take arbitrary `Nat` and agree with the
  source on the `u16` range.
* Scores (`i64`) are `Int`.
* The user-supplied plugin functions (scorer, validator, formatter) are
  stored in the Rust prompt structs but are immutable for the whole prompt
  lifetime; they are passed as explicit parameters here so that the state
  structures stay first-order (and decidably equal).
* Fallible operations (`Vec::swap_remove` out of bounds, i.e. a Rust panic)
  return `Option`.
-/

/-- Rust `usize::MAX` on a 64-bit target. -/
def USIZE_MAX : Nat := 18446744073709551615

/-- Rust `u32::MAX`. -/
def U32_MAX : Nat := 4294967295

/-- `u32::saturating_mul`. -/
def u32SaturatingMul (a b : Nat) : Nat := min (a * b) U32_MAX

/-- `ActionResult` from `prompts/prompt.rs` (that file is outside `src/`;
the two variants and their meaning — `NeedsRedraw` exactly when the handled
action changed visible state — are taken from their uses in the two files
under `src/` and from the spec, section 4.2). -/
inductive ActionResult where
  | clean : ActionResult
  | needsRedraw : ActionResult
  deriving DecidableEq

/-- `Validation` from the validator module (outside `src/`): the outcome an
option validator reports on submit.  `ErrorMessage` is modelled as `String`. -/
inductive Validation where
  | valid : Validation
  | invalid : String → Validation
  deriving DecidableEq

/-- `InquireError` variants used by the two embedded files. -/
inductive InquireError where
  | invalidConfiguration : String → InquireError
  | operationCanceled : InquireError
  | operationInterrupted : InquireError
  deriving DecidableEq

/-- `ListOption` (an option value paired with its canonical index). -/
structure ListOption (T : Type) where
  index : Nat
  value : T
  deriving DecidableEq

/-- The scorer plugin: `(filter text, value, display text, canonical index)
to an optional score`; `None` filters the option out. -/
def Scorer (T : Type) : Type := String → T → String → Nat → Option Int

/-- The multi-select validator plugin.  The Rust validator may additionally
fail with its own error (propagated by `?` in `validate_current_answer`);
the claims here only concern the `Valid`/`Invalid` outcomes, so the plugin
is modelled with those two outcomes. -/
def MultiOptionValidator (T : Type) : Type := List (ListOption T) → Validation

/-- The `SelectConfig` fields the embedded code reads
(`config.page_size`, `config.reset_cursor`).  The config type itself lives
outside `src/`; its construction from the builder copies like-named
fields (spec, section 6). -/
structure SelectConfig where
  pageSize : Nat
  resetCursor : Bool
  deriving DecidableEq

/-- The `MultiSelectConfig` fields the embedded code reads. -/
structure MultiSelectConfig where
  pageSize : Nat
  resetCursor : Bool
  keepFilter : Bool
  deriving DecidableEq

/-- The `Select` builder fields read by `SelectPrompt::new`.  The plugin
fields (scorer, formatter) are passed separately. -/
structure SelectOptions (T : Type) where
  message : String
  options : List T
  helpMessage : Option String
  pageSize : Nat
  resetCursor : Bool
  startingCursor : Nat
  filterInputEnabled : Bool
  startingFilterInput : Option String
  deriving DecidableEq

/-- The `MultiSelect` builder fields read by `MultiSelectPrompt::new`. -/
structure MultiSelectOptions (T : Type) where
  message : String
  options : List T
  defaultChecked : Option (List Nat)
  helpMessage : Option String
  pageSize : Nat
  resetCursor : Bool
  keepFilter : Bool
  startingCursor : Nat
  filterInputEnabled : Bool
  startingFilterInput : Option String
  deriving DecidableEq

/-- The `SelectPrompt` state (`select/prompt.rs`, lines 18-29).  The `Input`
collaborator is modelled by its text content. -/
structure SelectPrompt (T : Type) where
  message : String
  config : SelectConfig
  options : List T
  stringOptions : List String
  scoredOptions : List Nat
  helpMessage : Option String
  cursorIndex : Nat
  input : Option String
  deriving DecidableEq

/-- The `MultiSelectPrompt` state (`multiselect/prompt.rs`, lines 19-33).
The `BTreeSet<usize>` of checked indices is modelled as a strictly
ascending `List Nat` (the set's iteration order). -/
structure MultiSelectPrompt (T : Type) where
  message : String
  config : MultiSelectConfig
  options : List T
  stringOptions : List String
  helpMessage : Option String
  cursorIndex : Nat
  checked : List Nat
  input : Option String
  scoredOptions : List Nat
  error : Option String
  deriving DecidableEq

/-- Insertion into the sorted-distinct list modelling `BTreeSet<usize>`. -/
def btreeInsert (x : Nat) : List Nat → List Nat
  | [] => [x]
  | y :: ys => if x < y then x :: y :: ys else if x = y then y :: ys else y :: btreeInsert x ys

/-- `SelectPrompt::new` (`select/prompt.rs`, lines 35-72).  `toStr` models
the `Display` implementation of `T`. -/
def selectNew (toStr : T → String) (so : SelectOptions T) :
    Except InquireError (SelectPrompt T) :=
  if so.options.isEmpty then
    .error (.invalidConfiguration "Available options can not be empty")
  else if so.options.length ≤ so.startingCursor then
    .error (.invalidConfiguration "Starting cursor index is out-of-bounds for length of options")
  else
    .ok
      { message := so.message
        config := { pageSize := so.pageSize, resetCursor := so.resetCursor }
        options := so.options
        stringOptions := so.options.map toStr
        scoredOptions := List.range so.options.length
        helpMessage := so.helpMessage
        cursorIndex := so.startingCursor
        input := if so.filterInputEnabled then some (so.startingFilterInput.getD "") else none }

/-- `MultiSelectPrompt::new` (`multiselect/prompt.rs`, lines 39-92): it
checks emptiness and the default-checked indices, and — unlike the
single-select constructor — performs no check of `starting_cursor`. -/
def multiSelectNew (toStr : T → String) (mso : MultiSelectOptions T) :
    Except InquireError (MultiSelectPrompt T) :=
  if mso.options.isEmpty then
    .error (.invalidConfiguration "Available options can not be empty")
  else
    match (mso.defaultChecked.getD []).find? (fun i => mso.options.length ≤ i) with
    | some _ => .error (.invalidConfiguration "Index is out-of-bounds for length of options")
    | none =>
      .ok
        { message := mso.message
          config :=
            { pageSize := mso.pageSize
              resetCursor := mso.resetCursor
              keepFilter := mso.keepFilter }
          options := mso.options
          stringOptions := mso.options.map toStr
          scoredOptions := List.range mso.options.length
          helpMessage := mso.helpMessage
          cursorIndex := mso.startingCursor
          checked :=
            ((mso.defaultChecked.getD []).filter (fun i => i < mso.options.length)).foldl
              (fun acc i => btreeInsert i acc) []
          input := if mso.filterInputEnabled then some (mso.startingFilterInput.getD "") else none
          error := none }

/-- `Except.isOk`, locally defined. -/
def exceptIsOk : Except e a → Bool
  | .ok _ => true
  | .error _ => false

/-- `SelectPrompt::update_cursor_position` (`select/prompt.rs`, lines
103-110). -/
def SelectPrompt.updateCursorPosition (s : SelectPrompt T) (newPosition : Nat) :
    ActionResult × SelectPrompt T :=
  if newPosition ≠ s.cursorIndex then
    (.needsRedraw, { s with cursorIndex := newPosition })
  else
    (.clean, s)

/-- `SelectPrompt::move_cursor_up` (`select/prompt.rs`, lines 74-85).
`qty.saturating_sub(cursor)` and `len.saturating_sub(after_wrap)` are `Nat`
subtraction; `cursor.checked_sub(qty)` succeeds exactly when
`qty ≤ cursor`, which the `if` writes out. -/
def SelectPrompt.moveCursorUp (s : SelectPrompt T) (qty : Nat) (wrap : Bool) :
    ActionResult × SelectPrompt T :=
  let newPosition :=
    if wrap then
      let afterWrap := qty - s.cursorIndex
      if qty ≤ s.cursorIndex then s.cursorIndex - qty
      else s.scoredOptions.length - afterWrap
    else
      s.cursorIndex - qty
  s.updateCursorPosition newPosition

/-- `SelectPrompt::move_cursor_down` (`select/prompt.rs`, lines 87-101).
`cursor.saturating_add(qty)` saturates at `usize::MAX`. -/
def SelectPrompt.moveCursorDown (s : SelectPrompt T) (qty : Nat) (wrap : Bool) :
    ActionResult × SelectPrompt T :=
  let added := min (s.cursorIndex + qty) USIZE_MAX
  let newPosition :=
    if s.scoredOptions.length ≤ added then
      if s.scoredOptions.length = 0 then 0
      else if wrap then added % s.scoredOptions.length
      else s.scoredOptions.length - 1
    else added
  s.updateCursorPosition newPosition

/-- `MultiSelectPrompt::update_cursor_position` (`multiselect/prompt.rs`,
lines 123-130). -/
def MultiSelectPrompt.updateCursorPosition (s : MultiSelectPrompt T) (newPosition : Nat) :
    ActionResult × MultiSelectPrompt T :=
  if newPosition ≠ s.cursorIndex then
    (.needsRedraw, { s with cursorIndex := newPosition })
  else
    (.clean, s)

/-- `MultiSelectPrompt::move_cursor_up` (`multiselect/prompt.rs`, lines
94-105); identical to the single-select version. -/
def MultiSelectPrompt.moveCursorUp (s : MultiSelectPrompt T) (qty : Nat) (wrap : Bool) :
    ActionResult × MultiSelectPrompt T :=
  let newPosition :=
    if wrap then
      let afterWrap := qty - s.cursorIndex
      if qty ≤ s.cursorIndex then s.cursorIndex - qty
      else s.scoredOptions.length - afterWrap
    else
      s.cursorIndex - qty
  s.updateCursorPosition newPosition

/-- `MultiSelectPrompt::move_cursor_down` (`multiselect/prompt.rs`, lines
107-121); identical to the single-select version. -/
def MultiSelectPrompt.moveCursorDown (s : MultiSelectPrompt T) (qty : Nat) (wrap : Bool) :
    ActionResult × MultiSelectPrompt T :=
  let added := min (s.cursorIndex + qty) USIZE_MAX
  let newPosition :=
    if s.scoredOptions.length ≤ added then
      if s.scoredOptions.length = 0 then 0
      else if wrap then added % s.scoredOptions.length
      else s.scoredOptions.length - 1
    else added
  s.updateCursorPosition newPosition

/-- The surviving `(canonical index, score)` pairs of `run_scorer`
(`select/prompt.rs`, lines 132-140; `multiselect/prompt.rs`, lines
215-223): enumerate the options, apply the scorer, drop the filtered-out
ones.  `string_options.get(i).unwrap()` is modelled with `getD ""`; for
every state built by the constructors `stringOptions` has the same length
as `options`, so the default is unreachable there. -/
def survivingPairs (scorer : Scorer T) (content : String)
    (options : List T) (stringOptions : List String) : List (Nat × Int) :=
  options.enum.filterMap fun p =>
    (scorer content p.2 (stringOptions.getD p.1 "") p.1).map fun score => (p.1, score)

/-- Sorted by descending score only — the full guarantee
`sort_unstable_by_key(|(_idx, score)| Reverse(*score))` gives about its
output's order (the relative order of equal keys is unspecified). -/
def ScoreSortedDesc (l : List (Nat × Int)) : Prop :=
  l.Chain' fun a b => b.2 ≤ a.2

/-- The outcomes `Vec::sort_unstable_by_key(Reverse(score))` may produce on
`input`: any permutation of `input` that is sorted by descending score. -/
def UnstableSortOutcome (input output : List (Nat × Int)) : Prop :=
  input.Perm output ∧ ScoreSortedDesc output

/-- The tail of `run_scorer` once the new scored index list is known
(`select/prompt.rs`, lines 146-156): if unchanged, stop; otherwise replace
the scored order and reconcile the cursor (reset to 0, or clamp to the last
valid index when now out of bounds). -/
def SelectPrompt.applyNewScored (s : SelectPrompt T) (newScored : List Nat) :
    SelectPrompt T :=
  if s.scoredOptions = newScored then s
  else
    let s1 := { s with scoredOptions := newScored }
    if s1.config.resetCursor then (s1.updateCursorPosition 0).2
    else if s1.scoredOptions.length ≤ s1.cursorIndex then
      (s1.updateCursorPosition (s1.scoredOptions.length - 1)).2
    else s1

/-- The possible results of `SelectPrompt::run_scorer` (`select/prompt.rs`,
lines 126-157), as a relation because the unstable sort's tie order is not
a function of its input: with no filter input the state is unchanged;
otherwise the new scored order is the first projection of some
contract-allowed outcome of the unstable sort over the surviving pairs. -/
def SelectRunScorerOutcome (scorer : Scorer T) (s sNext : SelectPrompt T) : Prop :=
  match s.input with
  | none => sNext = s
  | some content =>
    ∃ sorted,
      UnstableSortOutcome (survivingPairs scorer content s.options s.stringOptions) sorted ∧
      sNext = s.applyNewScored (sorted.map Prod.fst)

/-- The tail of `MultiSelectPrompt::run_scorer` (`multiselect/prompt.rs`,
lines 229-239); identical to the single-select version. -/
def MultiSelectPrompt.applyNewScored (s : MultiSelectPrompt T) (newScored : List Nat) :
    MultiSelectPrompt T :=
  if s.scoredOptions = newScored then s
  else
    let s1 := { s with scoredOptions := newScored }
    if s1.config.resetCursor then (s1.updateCursorPosition 0).2
    else if s1.scoredOptions.length ≤ s1.cursorIndex then
      (s1.updateCursorPosition (s1.scoredOptions.length - 1)).2
    else s1

/-- The possible results of `MultiSelectPrompt::run_scorer`
(`multiselect/prompt.rs`, lines 209-240); identical to the single-select
version. -/
def MultiSelectRunScorerOutcome (scorer : Scorer T) (s sNext : MultiSelectPrompt T) : Prop :=
  match s.input with
  | none => sNext = s
  | some content =>
    ∃ sorted,
      UnstableSortOutcome (survivingPairs scorer content s.options s.stringOptions) sorted ∧
      sNext = s.applyNewScored (sorted.map Prod.fst)

/-- Modelled from the spec: the deterministic order the spec mandates for
the Scored Order — surviving pairs compared by the explicit tie-break key
`(-score, canonicalIndex)` (descending score, ties by ascending canonical
index); spec sections 4.1 and 9.  This definition and the two below follow
the spec's words and exist to be compared with the source-derived
`run_scorer` embedding. -/
def specKeyLe (a b : Nat × Int) : Bool :=
  b.2 < a.2 || (a.2 = b.2 && a.1 ≤ b.1)

/-- Insertion step of the spec-mandated sort. -/
def specInsert (x : Nat × Int) : List (Nat × Int) → List (Nat × Int)
  | [] => [x]
  | y :: ys => if specKeyLe x y then x :: y :: ys else y :: specInsert x ys

/-- The spec-mandated sort of the surviving pairs (insertion sort by
`specKeyLe`, which is total and antisymmetric, so the result is the unique
order the spec describes). -/
def specSortPairs : List (Nat × Int) → List (Nat × Int)
  | [] => []
  | x :: xs => specInsert x (specSortPairs xs)

/-- Modelled from the spec: the Scored Order the spec mandates (spec
sections 4.1-4.2 and 9). -/
def specTieBreakOrder (pairs : List (Nat × Int)) : List Nat :=
  (specSortPairs pairs).map Prod.fst

/-- `Vec::swap_remove(i)`: remove the element at `i`, moving the last
element into its place; `none` models the Rust panic when `i` is out of
bounds. -/
def swapRemove (l : List T) (i : Nat) : Option (T × List T) :=
  match l.get? i, l.getLast? with
  | some v, some last => some (v, (l.set i last).dropLast)
  | _, _ => none

/-- The loop of `MultiSelectPrompt::get_final_answer`
(`multiselect/prompt.rs`, lines 195-203): walk the checked indices in
descending order, `swap_remove` each from the shrinking option vector,
appending the `(index, value)` pair to `answer`. -/
def extractGo (options : List T) (descIdxs : List Nat) (answer : List (ListOption T)) :
    Option (List (ListOption T) × List T) :=
  match descIdxs with
  | [] => some (answer, options)
  | i :: rest =>
    match swapRemove options i with
    | none => none
    | some (v, options1) => extractGo options1 rest (answer ++ [⟨i, v⟩])

/-- `MultiSelectPrompt::get_final_answer` (`multiselect/prompt.rs`, lines
192-207): extract the checked options (descending, then reverse back to
ascending); the option vector is left shrunk. -/
def MultiSelectPrompt.getFinalAnswer (s : MultiSelectPrompt T) :
    Option (List (ListOption T) × MultiSelectPrompt T) :=
  (extractGo s.options s.checked.reverse []).map fun r =>
    (r.1.reverse, { s with options := r.2 })

/-- The `selected_options` slice built by
`MultiSelectPrompt::validate_current_answer` (`multiselect/prompt.rs`,
lines 175-183): the currently checked options with their indices, in
enumeration (ascending canonical-index) order. -/
def MultiSelectPrompt.selectedOptions (s : MultiSelectPrompt T) : List (ListOption T) :=
  s.options.enum.filterMap fun p =>
    if s.checked.contains p.1 then some ⟨p.1, p.2⟩ else none

/-- `MultiSelectPrompt::validate_current_answer` (`multiselect/prompt.rs`,
lines 173-190): run the validator over the checked options; with no
validator the answer is accepted. -/
def validateCurrentAnswer (validator : Option (MultiOptionValidator T))
    (s : MultiSelectPrompt T) : Validation :=
  match validator with
  | some v => v s.selectedOptions
  | none => .valid

/-- `MultiSelectPrompt::submit` (`multiselect/prompt.rs`, lines 345-355):
on `Valid`, the answer is extracted (and the prompt keeps running state
apart from the shrunk option vector); on `Invalid`, no answer is produced
and the message is attached as the prompt's error state. -/
def submitMS (validator : Option (MultiOptionValidator T)) (s : MultiSelectPrompt T) :
    Option (Option (List (ListOption T)) × MultiSelectPrompt T) :=
  match validateCurrentAnswer validator s with
  | .valid => s.getFinalAnswer.map fun r => (some r.1, r.2)
  | .invalid msg => some (none, { s with error := some msg })

/-- Whether an iteration of `redraw_with_adaptive_page_size` commits
(flushes the frame and stops): the frame fits the terminal, or the working
page size is already at most 1 (`select/prompt.rs`, line 359;
`multiselect/prompt.rs`, line 448). -/
def commitsFrame (pageSize frameH termH : Nat) : Bool :=
  frameH ≤ termH || pageSize ≤ 1

/-- The shrunk size computed on a non-committing iteration
(`select/prompt.rs`, lines 367-370): `(page_size as u32)` truncates modulo
`2 ^ 32`, the multiplication saturates in `u32`, and the division is
`checked_div(frame_h.max(1))` — the divisor is at least 1, so the
`unwrap_or(1)` branch is dead code and the division is exact floor
division.  Note there is no floor of 1 on this result. -/
def adaptiveNewSize (pageSize frameH termH : Nat) : Nat :=
  u32SaturatingMul (pageSize % 4294967296) (max termH 1) / max frameH 1

/-- The page size persisted by a non-committing iteration
(`select/prompt.rs`, lines 367-377; `multiselect/prompt.rs`, lines
455-465): the shrunk size, or `max (page_size - 1) 1` when the shrunk size
did not strictly decrease. -/
def adaptiveShrink (pageSize frameH termH : Nat) : Nat :=
  let newSize := adaptiveNewSize pageSize frameH termH
  if pageSize ≤ newSize then max (pageSize - 1) 1 else newSize

/-- The working page size of `redraw_with_adaptive_page_size` at the start
of iteration `k` (0-based), for the stream `ms` of
`(frame height, terminal height)` measurements (`select/prompt.rs`, lines
344-383; `multiselect/prompt.rs`, lines 430-473).  Iteration 0 starts at
`max (configured page size) 1`; a committing iteration ends the loop (the
size is frozen from then on), a non-committing one persists the shrunk
size. -/
def adaptivePageAt (ms : Nat → Nat × Nat) (p0 : Nat) : Nat → Nat
  | 0 => max p0 1
  | k + 1 =>
    let p := adaptivePageAt ms p0 k
    if commitsFrame p (ms k).1 (ms k).2 then p
    else adaptiveShrink p (ms k).1 (ms k).2

/-- A scorer that accepts every option with score 0 (all options tie). -/
def tieScorer : Scorer String := fun _ _ _ _ => some 0

/-- A two-option single-select state with filtering enabled. -/
def tieSelect : SelectPrompt String :=
  { message := "m"
    config := { pageSize := 7, resetCursor := true }
    options := ["a", "b"]
    stringOptions := ["a", "b"]
    scoredOptions := [0, 1]
    helpMessage := none
    cursorIndex := 0
    input := some "" }

/-- A two-option multi-select state with filtering enabled. -/
def tieMulti : MultiSelectPrompt String :=
  { message := "m"
    config := { pageSize := 7, resetCursor := true, keepFilter := false }
    options := ["a", "b"]
    stringOptions := ["a", "b"]
    helpMessage := none
    cursorIndex := 0
    checked := []
    input := some ""
    scoredOptions := [0, 1]
    error := none }

/-- Claim C1: for every filter text and option set, the Scored Order
produced by running the scorer is the surviving pairs sorted by descending
score with ties broken by ascending canonical index, deterministically and
independently of any sort routine's unspecified tie behavior.  This fails
on the code: `run_scorer` sorts with `sort_unstable_by_key(Reverse(score))`
and no index tie-break, so with two options tying at score 0 the sort
contract admits both surviving orders; in particular a contract-allowed
execution of `run_scorer` (for both prompts) produces Scored Order
`[1, 0]`, while the spec-mandated tie-broken order is `[0, 1]`. -/
theorem c1_tie_break_not_enforced :
    UnstableSortOutcome (survivingPairs tieScorer "" ["a", "b"] ["a", "b"])
      [(0, 0), (1, 0)]
    ∧ UnstableSortOutcome (survivingPairs tieScorer "" ["a", "b"] ["a", "b"])
      [(1, 0), (0, 0)]
    ∧ ([((1 : Nat), (0 : Int)), (0, 0)].map Prod.fst ≠
        [((0 : Nat), (0 : Int)), (1, 0)].map Prod.fst)
    ∧ SelectRunScorerOutcome tieScorer tieSelect { tieSelect with scoredOptions := [1, 0] }
    ∧ MultiSelectRunScorerOutcome tieScorer tieMulti { tieMulti with scoredOptions := [1, 0] }
    ∧ specTieBreakOrder (survivingPairs tieScorer "" ["a", "b"] ["a", "b"]) = [0, 1]
    ∧ ({ tieSelect with scoredOptions := [1, 0] } : SelectPrompt String).scoredOptions ≠
        specTieBreakOrder (survivingPairs tieScorer "" ["a", "b"] ["a", "b"]) := by
  refine ⟨⟨by decide, ?_⟩, ⟨by decide, ?_⟩, by decide, ?_, ?_, by decide, by decide⟩
  · simp [ScoreSortedDesc, List.chain'_cons]
  · simp [ScoreSortedDesc, List.chain'_cons]
  · exact ⟨[(1, 0), (0, 0)], ⟨by decide, by simp [ScoreSortedDesc, List.chain'_cons]⟩, by decide⟩
  · exact ⟨[(1, 0), (0, 0)], ⟨by decide, by simp [ScoreSortedDesc, List.chain'_cons]⟩, by decide⟩

/-- A one-option multi-select configuration whose starting cursor (5) is
far out of bounds. -/
def oobCursorMso : MultiSelectOptions String :=
  { message := "m"
    options := ["a"]
    defaultChecked := none
    helpMessage := none
    pageSize := 7
    resetCursor := true
    keepFilter := false
    startingCursor := 5
    filterInputEnabled := false
    startingFilterInput := none }

/-- Claim C2, counterexample: multi-select construction succeeds with one
option and starting cursor 5, although the claim says an out-of-bounds
starting cursor yields an InvalidConfiguration error for both prompts. -/
theorem c2_multiselect_oob_cursor_accepted :
    oobCursorMso.options.length ≤ oobCursorMso.startingCursor
    ∧ exceptIsOk (multiSelectNew (fun s => s) oobCursorMso) = true := by
  exact ⟨by decide, rfl⟩

/-- Claim C2 (amended): construction returns an InvalidConfiguration error
exactly when the option set is empty, or (single-select only) the starting
cursor is out of `[0, n)`, or (multi-select only) some default-checked
index is out of `[0, n)`; the multi-select starting cursor is not
validated.  Otherwise construction succeeds. -/
theorem c2_construction_validation (T : Type) (toStr : T → String)
    (so : SelectOptions T) (mso : MultiSelectOptions T) :
    ((∃ msg, selectNew toStr so = .error (.invalidConfiguration msg)) ↔
      (so.options = [] ∨ so.options.length ≤ so.startingCursor))
    ∧ (exceptIsOk (selectNew toStr so) = true ↔
      ¬(so.options = [] ∨ so.options.length ≤ so.startingCursor))
    ∧ ((∃ msg, multiSelectNew toStr mso = .error (.invalidConfiguration msg)) ↔
      (mso.options = [] ∨ ∃ i ∈ mso.defaultChecked.getD [], mso.options.length ≤ i))
    ∧ (exceptIsOk (multiSelectNew toStr mso) = true ↔
      ¬(mso.options = [] ∨ ∃ i ∈ mso.defaultChecked.getD [], mso.options.length ≤ i)) := by
  refine ⟨?_, ?_, ?_, ?_⟩
  · simp only [selectNew]
    split
    next h =>
      rw [List.isEmpty_iff] at h
      exact iff_of_true ⟨_, rfl⟩ (Or.inl h)
    next h =>
      rw [List.isEmpty_iff] at h
      split
      next h2 => exact iff_of_true ⟨_, rfl⟩ (Or.inr h2)
      next h2 =>
        refine iff_of_false ?_ ?_
        · rintro ⟨msg, hmsg⟩
          exact absurd hmsg (by simp)
        · rintro (h1 | h1)
          · exact h h1
          · exact h2 h1
  · simp only [selectNew]
    split
    next h =>
      rw [List.isEmpty_iff] at h
      exact iff_of_false (by simp [exceptIsOk]) (fun hneg => hneg (Or.inl h))
    next h =>
      rw [List.isEmpty_iff] at h
      split
      next h2 =>
        exact iff_of_false (by simp [exceptIsOk]) (fun hneg => hneg (Or.inr h2))
      next h2 =>
        refine iff_of_true rfl ?_
        rintro (h1 | h1)
        · exact h h1
        · exact h2 h1
  · simp only [multiSelectNew]
    split
    next h =>
      rw [List.isEmpty_iff] at h
      exact iff_of_true ⟨_, rfl⟩ (Or.inl h)
    next h =>
      rw [List.isEmpty_iff] at h
      split
      next x heq =>
        have hmem := List.mem_of_find?_eq_some heq
        have hp := List.find?_some heq
        rw [decide_eq_true_eq] at hp
        exact iff_of_true ⟨_, rfl⟩ (Or.inr ⟨x, hmem, hp⟩)
      next heq =>
        have hall := List.find?_eq_none.mp heq
        simp only [decide_eq_true_eq] at hall
        refine iff_of_false ?_ ?_
        · rintro ⟨msg, hmsg⟩
          exact absurd hmsg (by simp)
        · rintro (h1 | ⟨i, hi, hle⟩)
          · exact h h1
          · exact hall i hi hle
  · simp only [multiSelectNew]
    split
    next h =>
      rw [List.isEmpty_iff] at h
      exact iff_of_false (by simp [exceptIsOk]) (fun hneg => hneg (Or.inl h))
    next h =>
      rw [List.isEmpty_iff] at h
      split
      next x heq =>
        have hmem := List.mem_of_find?_eq_some heq
        have hp := List.find?_some heq
        rw [decide_eq_true_eq] at hp
        exact iff_of_false (by simp [exceptIsOk]) (fun hneg => hneg (Or.inr ⟨x, hmem, hp⟩))
      next heq =>
        have hall := List.find?_eq_none.mp heq
        simp only [decide_eq_true_eq] at hall
        refine iff_of_true rfl ?_
        rintro (h1 | ⟨i, hi, hle⟩)
        · exact h h1
        · exact hall i hi hle

/-- Claim C3: the claim is right that Scenario C computes
`floor(50 * 20 / 60) = 16`, but its general statement — the persisted page
size equals `floor(p * t / f)` with a floor of 1 and is always at least 1 —
fails on the code: the division result carries no floor of 1 (only the
did-not-strictly-decrease fallback does), so a non-committing iteration
with working page size 2, frame height 3 and terminal height 1 persists
page size 0, where the claim demands `max (floor (2 * 1 / 3)) 1 = 1`. -/
theorem c3_shrink_floor_of_one_missing :
    commitsFrame 2 3 1 = false
    ∧ adaptiveShrink 2 3 1 = 0
    ∧ max (2 * 1 / 3) 1 = 1
    ∧ commitsFrame 50 60 20 = false
    ∧ adaptiveShrink 50 60 20 = 16 := by
  decide

/-- `commitsFrame p f t = false` forces an oversized frame and a working
page size of at least 2. -/
theorem commitsFrame_eq_false (p f t : Nat) (h : commitsFrame p f t = false) :
    t < f ∧ 2 ≤ p := by
  simp only [commitsFrame, Bool.or_eq_false_iff, decide_eq_false_iff_not] at h
  omega

/-- On a non-committing iteration the persisted page size strictly
decreases: either the computed size is below `p`, or the fallback
`max (p - 1) 1` is taken and `2 ≤ p`. -/
theorem adaptiveShrink_lt (p f t : Nat) (hp : 2 ≤ p) : adaptiveShrink p f t < p := by
  unfold adaptiveShrink
  by_cases h : p ≤ adaptiveNewSize p f t
  · rw [if_pos h]
    omega
  · rw [if_neg h]
    omega

/-- Claim C4: for every measurement stream, the working page size strictly
decreases on every non-committing iteration, the loop commits within at
most the initially configured page size iterations (there is a committing
iteration `k < p0`, 0-based), and an iteration whose working page size is
at most 1 always commits. -/
theorem c4_adaptive_termination (ms : Nat → Nat × Nat) (p0 : Nat) (hp : 1 ≤ p0) :
    (∀ k, commitsFrame (adaptivePageAt ms p0 k) (ms k).1 (ms k).2 = false →
      adaptivePageAt ms p0 (k + 1) < adaptivePageAt ms p0 k)
    ∧ (∃ k, k < p0 ∧ commitsFrame (adaptivePageAt ms p0 k) (ms k).1 (ms k).2 = true)
    ∧ (∀ k, adaptivePageAt ms p0 k ≤ 1 →
      commitsFrame (adaptivePageAt ms p0 k) (ms k).1 (ms k).2 = true) := by
  have hdec : ∀ k, commitsFrame (adaptivePageAt ms p0 k) (ms k).1 (ms k).2 = false →
      adaptivePageAt ms p0 (k + 1) < adaptivePageAt ms p0 k := by
    intro k h
    have h2 := commitsFrame_eq_false _ _ _ h
    show (if commitsFrame (adaptivePageAt ms p0 k) (ms k).1 (ms k).2 then
        adaptivePageAt ms p0 k
      else adaptiveShrink (adaptivePageAt ms p0 k) (ms k).1 (ms k).2) < adaptivePageAt ms p0 k
    rw [h]
    simp only [Bool.false_eq_true, if_false]
    exact adaptiveShrink_lt _ _ _ h2.2
  have hone : ∀ k, adaptivePageAt ms p0 k ≤ 1 →
      commitsFrame (adaptivePageAt ms p0 k) (ms k).1 (ms k).2 = true := by
    intro k hk
    simp only [commitsFrame, Bool.or_eq_true, decide_eq_true_eq]
    omega
  refine ⟨hdec, ?_, hone⟩
  by_contra hnone
  push_neg at hnone
  have hfalse : ∀ k, k < p0 →
      commitsFrame (adaptivePageAt ms p0 k) (ms k).1 (ms k).2 = false := by
    intro k hk
    have := hnone k hk
    exact Bool.not_eq_true _ ▸ this
  have key : ∀ k, k ≤ p0 - 1 → adaptivePageAt ms p0 k + k ≤ p0 := by
    intro k
    induction k with
    | zero =>
      intro _
      show max p0 1 + 0 ≤ p0
      omega
    | succ n ih =>
      intro hn
      have hlt := hdec n (hfalse n (by omega))
      have := ih (by omega)
      omega
  have hlast := key (p0 - 1) (by omega)
  have hsmall : adaptivePageAt ms p0 (p0 - 1) ≤ 1 := by omega
  have := hone (p0 - 1) hsmall
  have := hfalse (p0 - 1) (by omega)
  simp_all

/-- A fixed measurement stream (every frame 5 rows tall, terminal 3 rows). -/
def steadyMs : Nat → Nat × Nat := fun _ => (5, 3)

/-- Witness for C4 at the concrete stream `steadyMs` and configured page
size 4. -/
theorem c4_adaptive_termination_witness :
    (∀ k, commitsFrame (adaptivePageAt steadyMs 4 k) (steadyMs k).1 (steadyMs k).2 = false →
      adaptivePageAt steadyMs 4 (k + 1) < adaptivePageAt steadyMs 4 k)
    ∧ (∃ k, k < 4 ∧ commitsFrame (adaptivePageAt steadyMs 4 k) (steadyMs k).1 (steadyMs k).2 = true)
    ∧ (∀ k, adaptivePageAt steadyMs 4 k ≤ 1 →
      commitsFrame (adaptivePageAt steadyMs 4 k) (steadyMs k).1 (steadyMs k).2 = true) :=
  c4_adaptive_termination steadyMs 4 (by decide)

/-- `update_cursor_position` always leaves the cursor at the requested
position (writing it when it differs, keeping the equal old value
otherwise), and changes nothing else. -/
theorem SelectPrompt.updateCursorPosition_snd_select (s : SelectPrompt T) (p : Nat) :
    (s.updateCursorPosition p).2 = { s with cursorIndex := p } := by
  unfold updateCursorPosition
  split
  next h => rfl
  next h =>
    rw [not_ne_iff] at h
    subst h
    rfl

/-- `update_cursor_position` reports a redraw exactly when the requested
position differs from the current cursor. -/
theorem SelectPrompt.updateCursorPosition_fst_select (s : SelectPrompt T) (p : Nat) :
    ((s.updateCursorPosition p).1 = .needsRedraw) ↔ p ≠ s.cursorIndex := by
  unfold updateCursorPosition
  split
  next h => simp [h]
  next h => simp [h]

/-- The multi-select `update_cursor_position`, state part. -/
theorem MultiSelectPrompt.updateCursorPosition_snd_multi (s : MultiSelectPrompt T) (p : Nat) :
    (s.updateCursorPosition p).2 = { s with cursorIndex := p } := by
  unfold updateCursorPosition
  split
  next h => rfl
  next h =>
    rw [not_ne_iff] at h
    subst h
    rfl

/-- The multi-select `update_cursor_position`, redraw part. -/
theorem MultiSelectPrompt.updateCursorPosition_fst_multi (s : MultiSelectPrompt T) (p : Nat) :
    ((s.updateCursorPosition p).1 = .needsRedraw) ↔ p ≠ s.cursorIndex := by
  unfold updateCursorPosition
  split
  next h => simp [h]
  next h => simp [h]

/-- Frame property of `update_cursor_position`: the new state differs from
the old at most in `cursorIndex`, and the redraw flag is reported exactly
when the final cursor differs from the initial one. -/
theorem SelectPrompt.updateCursor_frame_select (s : SelectPrompt T) (p : Nat) :
    (s.updateCursorPosition p).2
      = { s with cursorIndex := (s.updateCursorPosition p).2.cursorIndex }
    ∧ ((s.updateCursorPosition p).1 = .needsRedraw ↔
        (s.updateCursorPosition p).2.cursorIndex ≠ s.cursorIndex) := by
  rw [SelectPrompt.updateCursorPosition_snd_select]
  exact ⟨rfl, SelectPrompt.updateCursorPosition_fst_select s p⟩

/-- Frame property of the multi-select `update_cursor_position`. -/
theorem MultiSelectPrompt.updateCursor_frame_multi (s : MultiSelectPrompt T) (p : Nat) :
    (s.updateCursorPosition p).2
      = { s with cursorIndex := (s.updateCursorPosition p).2.cursorIndex }
    ∧ ((s.updateCursorPosition p).1 = .needsRedraw ↔
        (s.updateCursorPosition p).2.cursorIndex ≠ s.cursorIndex) := by
  rw [MultiSelectPrompt.updateCursorPosition_snd_multi]
  exact ⟨rfl, MultiSelectPrompt.updateCursorPosition_fst_multi s p⟩

/-- Claim C7: over a non-empty Scored Order of length `L`, a wrap-enabled
move-up by 1 from cursor 0 lands on `L - 1`, and a wrap-enabled move-down
by 1 from cursor `L - 1` lands on 0, for both prompts. -/
theorem c7_wrap_single_step_edges (T : Type) (s : SelectPrompt T) (m : MultiSelectPrompt T)
    (hs : 0 < s.scoredOptions.length) (hsu : s.scoredOptions.length ≤ USIZE_MAX)
    (hm : 0 < m.scoredOptions.length) (hmu : m.scoredOptions.length ≤ USIZE_MAX) :
    (({ s with cursorIndex := 0 }).moveCursorUp 1 true).2.cursorIndex
      = s.scoredOptions.length - 1
    ∧ (({ s with cursorIndex := s.scoredOptions.length - 1 }).moveCursorDown 1 true).2.cursorIndex
      = 0
    ∧ (({ m with cursorIndex := 0 }).moveCursorUp 1 true).2.cursorIndex
      = m.scoredOptions.length - 1
    ∧ (({ m with cursorIndex := m.scoredOptions.length - 1 }).moveCursorDown 1 true).2.cursorIndex
      = 0 := by
  refine ⟨?_, ?_, ?_, ?_⟩
  · simp only [SelectPrompt.moveCursorUp, SelectPrompt.updateCursorPosition_snd_select]
    norm_num
  · simp only [SelectPrompt.moveCursorDown, SelectPrompt.updateCursorPosition_snd_select]
    have hadd : min (s.scoredOptions.length - 1 + 1) USIZE_MAX = s.scoredOptions.length := by
      omega
    simp only [hadd]
    rw [if_pos (le_refl _), if_neg (by omega)]
    simp [Nat.mod_self]
  · simp only [MultiSelectPrompt.moveCursorUp, MultiSelectPrompt.updateCursorPosition_snd_multi]
    norm_num
  · simp only [MultiSelectPrompt.moveCursorDown, MultiSelectPrompt.updateCursorPosition_snd_multi]
    have hadd : min (m.scoredOptions.length - 1 + 1) USIZE_MAX = m.scoredOptions.length := by
      omega
    simp only [hadd]
    rw [if_pos (le_refl _), if_neg (by omega)]
    simp [Nat.mod_self]

/-- A three-option single-select state (used as a concrete witness input). -/
def threeSelect : SelectPrompt String :=
  { tieSelect with
    options := ["a", "b", "c"]
    stringOptions := ["a", "b", "c"]
    scoredOptions := [0, 1, 2] }

/-- A three-option multi-select state (used as a concrete witness input). -/
def threeMulti : MultiSelectPrompt String :=
  { tieMulti with
    options := ["a", "b", "c"]
    stringOptions := ["a", "b", "c"]
    scoredOptions := [0, 1, 2] }

/-- Witness for C7 over three scored options. -/
theorem c7_wrap_single_step_edges_witness :
    (({ threeSelect with cursorIndex := 0 }).moveCursorUp 1 true).2.cursorIndex
      = threeSelect.scoredOptions.length - 1
    ∧ (({ threeSelect with
          cursorIndex := threeSelect.scoredOptions.length - 1 }).moveCursorDown 1 true
        ).2.cursorIndex = 0
    ∧ (({ threeMulti with cursorIndex := 0 }).moveCursorUp 1 true).2.cursorIndex
      = threeMulti.scoredOptions.length - 1
    ∧ (({ threeMulti with
          cursorIndex := threeMulti.scoredOptions.length - 1 }).moveCursorDown 1 true
        ).2.cursorIndex = 0 :=
  c7_wrap_single_step_edges String threeSelect threeMulti
    (by decide) (by decide) (by decide) (by decide)

/-- Claim C8: for every step quantity, the non-wrapping movements (used
for page up, page down, Home and End) keep the cursor inside `[0, L - 1]`
for a non-empty Scored Order of length `L`, and clamp instead of wrapping:
move-up lands exactly on `cursor - qty` saturated at 0 (so 0 whenever the
quantity reaches the cursor), and move-down lands exactly on
`cursor + qty`, clamped to `L - 1` whenever that sum reaches the end —
never wrapping past either end; for both prompts. -/
theorem c8_no_wrap_clamps_at_ends (T : Type) (s : SelectPrompt T)
    (m : MultiSelectPrompt T) (qty : Nat)
    (hs : s.cursorIndex < s.scoredOptions.length)
    (hsu : s.scoredOptions.length ≤ USIZE_MAX)
    (hm : m.cursorIndex < m.scoredOptions.length)
    (hmu : m.scoredOptions.length ≤ USIZE_MAX) :
    ((s.moveCursorUp qty false).2.cursorIndex < s.scoredOptions.length
      ∧ (s.moveCursorUp qty false).2.cursorIndex = s.cursorIndex - qty
      ∧ (s.cursorIndex ≤ qty → (s.moveCursorUp qty false).2.cursorIndex = 0))
    ∧ ((s.moveCursorDown qty false).2.cursorIndex < s.scoredOptions.length
      ∧ (s.scoredOptions.length ≤ s.cursorIndex + qty →
          (s.moveCursorDown qty false).2.cursorIndex = s.scoredOptions.length - 1)
      ∧ (s.cursorIndex + qty < s.scoredOptions.length →
          (s.moveCursorDown qty false).2.cursorIndex = s.cursorIndex + qty))
    ∧ ((m.moveCursorUp qty false).2.cursorIndex < m.scoredOptions.length
      ∧ (m.moveCursorUp qty false).2.cursorIndex = m.cursorIndex - qty
      ∧ (m.cursorIndex ≤ qty → (m.moveCursorUp qty false).2.cursorIndex = 0))
    ∧ ((m.moveCursorDown qty false).2.cursorIndex < m.scoredOptions.length
      ∧ (m.scoredOptions.length ≤ m.cursorIndex + qty →
          (m.moveCursorDown qty false).2.cursorIndex = m.scoredOptions.length - 1)
      ∧ (m.cursorIndex + qty < m.scoredOptions.length →
          (m.moveCursorDown qty false).2.cursorIndex = m.cursorIndex + qty)) := by
  refine ⟨?_, ?_, ?_, ?_⟩
  · simp only [SelectPrompt.moveCursorUp, SelectPrompt.updateCursorPosition_snd_select]
    simp only [Bool.false_eq_true, if_false]
    refine ⟨by omega, trivial, by omega⟩
  · simp only [SelectPrompt.moveCursorDown, SelectPrompt.updateCursorPosition_snd_select]
    by_cases h : s.scoredOptions.length ≤ min (s.cursorIndex + qty) USIZE_MAX
    · rw [if_pos h, if_neg (by omega)]
      simp only [Bool.false_eq_true, if_false]
      refine ⟨by omega, fun _ => trivial, by omega⟩
    · rw [if_neg h]
      refine ⟨by omega, by omega, by omega⟩
  · simp only [MultiSelectPrompt.moveCursorUp, MultiSelectPrompt.updateCursorPosition_snd_multi]
    simp only [Bool.false_eq_true, if_false]
    refine ⟨by omega, trivial, by omega⟩
  · simp only [MultiSelectPrompt.moveCursorDown, MultiSelectPrompt.updateCursorPosition_snd_multi]
    by_cases h : m.scoredOptions.length ≤ min (m.cursorIndex + qty) USIZE_MAX
    · rw [if_pos h, if_neg (by omega)]
      simp only [Bool.false_eq_true, if_false]
      refine ⟨by omega, fun _ => trivial, by omega⟩
    · rw [if_neg h]
      refine ⟨by omega, by omega, by omega⟩

/-- Witness for C8: a huge quantity (as Home/End use) from cursor 1 over
three options lands exactly on 0 going up and exactly on 2 going down. -/
theorem c8_no_wrap_clamps_at_ends_witness :
    ((({ threeSelect with cursorIndex := 1 }).moveCursorUp USIZE_MAX false).2.cursorIndex
        < ({ threeSelect with cursorIndex := 1 }).scoredOptions.length
      ∧ (({ threeSelect with cursorIndex := 1 }).moveCursorUp USIZE_MAX false).2.cursorIndex
        = ({ threeSelect with cursorIndex := 1 }).cursorIndex - USIZE_MAX
      ∧ (({ threeSelect with cursorIndex := 1 }).cursorIndex ≤ USIZE_MAX →
          (({ threeSelect with cursorIndex := 1 }).moveCursorUp USIZE_MAX false).2.cursorIndex = 0))
    ∧ ((({ threeSelect with cursorIndex := 1 }).moveCursorDown USIZE_MAX false).2.cursorIndex
        < ({ threeSelect with cursorIndex := 1 }).scoredOptions.length
      ∧ (({ threeSelect with cursorIndex := 1 }).scoredOptions.length
            ≤ ({ threeSelect with cursorIndex := 1 }).cursorIndex + USIZE_MAX →
          (({ threeSelect with cursorIndex := 1 }).moveCursorDown USIZE_MAX false).2.cursorIndex
            = ({ threeSelect with cursorIndex := 1 }).scoredOptions.length - 1)
      ∧ (({ threeSelect with cursorIndex := 1 }).cursorIndex + USIZE_MAX
            < ({ threeSelect with cursorIndex := 1 }).scoredOptions.length →
          (({ threeSelect with cursorIndex := 1 }).moveCursorDown USIZE_MAX false).2.cursorIndex
            = ({ threeSelect with cursorIndex := 1 }).cursorIndex + USIZE_MAX))
    ∧ ((({ threeMulti with cursorIndex := 1 }).moveCursorUp USIZE_MAX false).2.cursorIndex
        < ({ threeMulti with cursorIndex := 1 }).scoredOptions.length
      ∧ (({ threeMulti with cursorIndex := 1 }).moveCursorUp USIZE_MAX false).2.cursorIndex
        = ({ threeMulti with cursorIndex := 1 }).cursorIndex - USIZE_MAX
      ∧ (({ threeMulti with cursorIndex := 1 }).cursorIndex ≤ USIZE_MAX →
          (({ threeMulti with cursorIndex := 1 }).moveCursorUp USIZE_MAX false).2.cursorIndex = 0))
    ∧ ((({ threeMulti with cursorIndex := 1 }).moveCursorDown USIZE_MAX false).2.cursorIndex
        < ({ threeMulti with cursorIndex := 1 }).scoredOptions.length
      ∧ (({ threeMulti with cursorIndex := 1 }).scoredOptions.length
            ≤ ({ threeMulti with cursorIndex := 1 }).cursorIndex + USIZE_MAX →
          (({ threeMulti with cursorIndex := 1 }).moveCursorDown USIZE_MAX false).2.cursorIndex
            = ({ threeMulti with cursorIndex := 1 }).scoredOptions.length - 1)
      ∧ (({ threeMulti with cursorIndex := 1 }).cursorIndex + USIZE_MAX
            < ({ threeMulti with cursorIndex := 1 }).scoredOptions.length →
          (({ threeMulti with cursorIndex := 1 }).moveCursorDown USIZE_MAX false).2.cursorIndex
            = ({ threeMulti with cursorIndex := 1 }).cursorIndex + USIZE_MAX)) :=
  c8_no_wrap_clamps_at_ends String
    { threeSelect with cursorIndex := 1 } { threeMulti with cursorIndex := 1 } USIZE_MAX
    (by decide) (by decide) (by decide) (by decide)

/-- Claim C9: every cursor movement (any quantity, with or without wrap,
covering single steps, page jumps, Home and End) changes at most the
cursor index — message, config, option set, string options, scored order,
help message, filter input, and for multi-select the checked set and the
error message, are all unchanged — and reports `NeedsRedraw` exactly when
the cursor value actually changed. -/
theorem c9_movement_touches_only_cursor (T : Type) (s : SelectPrompt T)
    (m : MultiSelectPrompt T) (qty : Nat) (wrap : Bool) :
    ((s.moveCursorUp qty wrap).2
        = { s with cursorIndex := (s.moveCursorUp qty wrap).2.cursorIndex }
      ∧ ((s.moveCursorUp qty wrap).1 = .needsRedraw ↔
          (s.moveCursorUp qty wrap).2.cursorIndex ≠ s.cursorIndex))
    ∧ ((s.moveCursorDown qty wrap).2
        = { s with cursorIndex := (s.moveCursorDown qty wrap).2.cursorIndex }
      ∧ ((s.moveCursorDown qty wrap).1 = .needsRedraw ↔
          (s.moveCursorDown qty wrap).2.cursorIndex ≠ s.cursorIndex))
    ∧ ((m.moveCursorUp qty wrap).2
        = { m with cursorIndex := (m.moveCursorUp qty wrap).2.cursorIndex }
      ∧ ((m.moveCursorUp qty wrap).1 = .needsRedraw ↔
          (m.moveCursorUp qty wrap).2.cursorIndex ≠ m.cursorIndex))
    ∧ ((m.moveCursorDown qty wrap).2
        = { m with cursorIndex := (m.moveCursorDown qty wrap).2.cursorIndex }
      ∧ ((m.moveCursorDown qty wrap).1 = .needsRedraw ↔
          (m.moveCursorDown qty wrap).2.cursorIndex ≠ m.cursorIndex)) :=
  ⟨SelectPrompt.updateCursor_frame_select s _, SelectPrompt.updateCursor_frame_select s _,
    MultiSelectPrompt.updateCursor_frame_multi m _, MultiSelectPrompt.updateCursor_frame_multi m _⟩

/-- Claim C10: a wrap-enabled move-up whose quantity overshoots the whole
list (`qty - cursor ≥ L`, i.e. `cursor + L ≤ qty`) saturates at 0 instead
of wrapping modularly, for both prompts. -/
theorem c10_wrap_overshoot_saturates_at_zero (T : Type) (s : SelectPrompt T)
    (m : MultiSelectPrompt T) (qty qtym : Nat)
    (hs : 0 < s.scoredOptions.length)
    (hsq : s.cursorIndex + s.scoredOptions.length ≤ qty)
    (hm : 0 < m.scoredOptions.length)
    (hmq : m.cursorIndex + m.scoredOptions.length ≤ qtym) :
    (s.moveCursorUp qty true).2.cursorIndex = 0
    ∧ (m.moveCursorUp qtym true).2.cursorIndex = 0 := by
  constructor
  · simp only [SelectPrompt.moveCursorUp, SelectPrompt.updateCursorPosition_snd_select]
    rw [if_pos trivial, if_neg (by omega)]
    omega
  · simp only [MultiSelectPrompt.moveCursorUp, MultiSelectPrompt.updateCursorPosition_snd_multi]
    rw [if_pos trivial, if_neg (by omega)]
    omega

/-- Witness for C10: moving up by 7 from cursor 1 over three options (the
overshoot `7 - 1 = 6` is at least the length 3) lands on 0. -/
theorem c10_wrap_overshoot_saturates_at_zero_witness :
    (({ threeSelect with cursorIndex := 1 }).moveCursorUp 7 true).2.cursorIndex = 0
    ∧ (({ threeMulti with cursorIndex := 1 }).moveCursorUp 7 true).2.cursorIndex = 0 :=
  c10_wrap_overshoot_saturates_at_zero String
    { threeSelect with cursorIndex := 1 } { threeMulti with cursorIndex := 1 } 7 7
    (by decide) (by decide) (by decide) (by decide)

/-- `swap_remove` at an in-bounds index returns the element stored at that
index, shortens the vector by one, and leaves the strict prefix before the
index untouched (only the removed slot receives the old last element, and
the last slot is dropped). -/
theorem swapRemove_spec (l : List T) (i : Nat) (d : T) (h : i < l.length) :
    ∃ rest, swapRemove l i = some (l.getD i d, rest)
      ∧ rest.length = l.length - 1
      ∧ ∀ j, j < i → rest.getD j d = l.getD j d := by
  have hne : l ≠ [] := by
    intro he
    subst he
    simp at h
  obtain ⟨last, hl⟩ := Option.isSome_iff_exists.mp (List.getLast?_isSome.mpr hne)
  have hget : l.get? i = some (l.getD i d) := by
    rw [List.get?_eq_getElem?, List.getElem?_eq_getElem h,
      List.getD_eq_getElem?_getD, List.getElem?_eq_getElem h]
    rfl
  refine ⟨(l.set i last).dropLast, ?_, ?_, ?_⟩
  · unfold swapRemove
    rw [hget, hl]
  · simp [List.length_dropLast, List.length_set]
  · intro j hj
    rw [List.getD_eq_getElem?_getD, List.getD_eq_getElem?_getD, List.dropLast_eq_take,
      List.length_set, List.getElem?_take_of_lt (by omega), List.getElem?_set_ne (by omega)]

/-- The extraction loop of `get_final_answer`, processed over a strictly
descending in-bounds index list, appends exactly the `(index, original
value)` pairs in processing order: removing the largest remaining index
first never disturbs the positions still to be read. -/
theorem extractGo_desc (d : T) :
    ∀ (ds : List Nat) (opts : List T) (acc : List (ListOption T)),
    List.Pairwise (· > ·) ds → (∀ i ∈ ds, i < opts.length) →
    ∃ rest, extractGo opts ds acc
      = some (acc ++ ds.map (fun i => ⟨i, opts.getD i d⟩), rest) := by
  intro ds
  induction ds with
  | nil =>
    intro opts acc _ _
    exact ⟨opts, by simp [extractGo]⟩
  | cons i rest ih =>
    intro opts acc hpw hbd
    have hi : i < opts.length := hbd i (List.mem_cons_self i rest)
    obtain ⟨t, hsw, hlen, hpre⟩ := swapRemove_spec opts i d hi
    rw [List.pairwise_cons] at hpw
    have hbd2 : ∀ j ∈ rest, j < t.length := by
      intro j hj
      have hji : i > j := hpw.1 j hj
      have := hbd j (List.mem_cons_of_mem i hj)
      omega
    obtain ⟨rest2, hgo⟩ := ih t (acc ++ [⟨i, opts.getD i d⟩]) hpw.2 hbd2
    refine ⟨rest2, ?_⟩
    have hstep : extractGo opts (i :: rest) acc
        = extractGo t rest (acc ++ [⟨i, opts.getD i d⟩]) := by
      conv_lhs => rw [extractGo]
      rw [hsw]
    rw [hstep, hgo]
    have hmap : rest.map (fun j => (⟨j, t.getD j d⟩ : ListOption T))
        = rest.map (fun j => (⟨j, opts.getD j d⟩ : ListOption T)) := by
      apply List.map_congr_left
      intro j hj
      rw [hpre j (hpw.1 j hj)]
    rw [hmap]
    simp [List.append_assoc]

/-- `get_final_answer` over a strictly ascending in-bounds checked list
yields exactly the checked indices paired with the originally stored
values, in ascending canonical-index order; only the option vector of the
state changes. -/
theorem getFinalAnswer_of_sorted (d : T) (s : MultiSelectPrompt T)
    (hsorted : List.Pairwise (· < ·) s.checked)
    (hbound : ∀ i ∈ s.checked, i < s.options.length) :
    ∃ rest, s.getFinalAnswer
      = some (s.checked.map (fun i => ⟨i, s.options.getD i d⟩),
          { s with options := rest }) := by
  have hpw : List.Pairwise (· > ·) s.checked.reverse := by
    rw [List.pairwise_reverse]
    exact hsorted
  have hbd : ∀ i ∈ s.checked.reverse, i < s.options.length := by
    intro i hi
    exact hbound i (List.mem_reverse.mp hi)
  obtain ⟨rest, hgo⟩ := extractGo_desc d s.checked.reverse s.options [] hpw hbd
  refine ⟨rest, ?_⟩
  unfold MultiSelectPrompt.getFinalAnswer
  rw [hgo]
  simp [List.map_reverse]

/-- Claim C5: on a multi-select submit accepted by the validator (or with
no validator configured), the returned answer is exactly the checked
canonical indices paired with the option values originally stored at those
indices, in ascending canonical-index order; the state is unchanged except
for the destructively extracted option vector. -/
theorem c5_submit_valid_extracts_checked (T : Type) (d : T)
    (validator : Option (MultiOptionValidator T)) (s : MultiSelectPrompt T)
    (hsorted : List.Pairwise (· < ·) s.checked)
    (hbound : ∀ i ∈ s.checked, i < s.options.length)
    (hvalid : validateCurrentAnswer validator s = .valid) :
    ∃ rest, submitMS validator s
      = some (some (s.checked.map (fun i => ⟨i, s.options.getD i d⟩)),
          { s with options := rest }) := by
  obtain ⟨rest, hga⟩ := getFinalAnswer_of_sorted d s hsorted hbound
  refine ⟨rest, ?_⟩
  unfold submitMS
  rw [hvalid, hga]
  rfl

/-- Three options with canonical indices 0 and 2 checked. -/
def checkedMulti : MultiSelectPrompt String :=
  { threeMulti with checked := [0, 2] }

/-- Witness for C5 (the spec's Scenario B): three options, indices 0 and 2
checked, no validator. -/
theorem c5_submit_valid_extracts_checked_witness :
    ∃ rest, submitMS none checkedMulti
      = some (some (checkedMulti.checked.map
          (fun i => ⟨i, checkedMulti.options.getD i ""⟩)),
          { checkedMulti with options := rest }) :=
  c5_submit_valid_extracts_checked String "" none checkedMulti
    (by decide) (by decide) rfl

/-- Claim C6: on a multi-select submit rejected by the validator, no answer
is returned (the loop keeps running), the returned message is attached as
the prompt's error state, and every other state component — options,
string options, checked set, scored order, cursor, filter input — is
unchanged by the submit attempt. -/
theorem c6_submit_invalid_attaches_error (T : Type)
    (validator : Option (MultiOptionValidator T)) (s : MultiSelectPrompt T)
    (msg : String)
    (hinv : validateCurrentAnswer validator s = .invalid msg) :
    submitMS validator s = some (none, { s with error := some msg }) := by
  unfold submitMS
  rw [hinv]

/-- A validator rejecting empty selections (the spec's Scenario D). -/
def rejectEmptyValidator : MultiOptionValidator String :=
  fun l => if l.isEmpty then .invalid "A response is required." else .valid

/-- Witness for C6: submit with zero checked options under
`rejectEmptyValidator` attaches the message and returns no answer. -/
theorem c6_submit_invalid_attaches_error_witness :
    submitMS (some rejectEmptyValidator) threeMulti
      = some (none, { threeMulti with error := some "A response is required." }) :=
  c6_submit_invalid_attaches_error String (some rejectEmptyValidator) threeMulti
    "A response is required." rfl
